import Mathlib

/-!
Shallow embedding of the twilio-gemini-bot repository.

The embedded code:
  * `src/app.py`               — the `bot` webhook endpoint (tokenization and
                                 the outermost try/except).
  * `src/handlers/commands.py` — `CommandHandler` (dispatch mapping, the
                                 per-backend wrapper handlers and the default).
  * `src/models/openai.py`     — `OpenaiModel` (request shape, `max_tokens`
                                 budget, error swallowing that yields `None`).
  * `src/models/gemini.py`     — `GeminiModel` (prompt construction,
                                 re-raising error discipline).

Modelling conventions:
  * Outbound HTTP is parameterized by oracles (`gnet` for the Gemini
    generative call, `onet` for the OpenAI completions call).  An oracle maps
    the request the code builds to an outcome (success text, raised exception,
    bad HTTP status, or malformed body).
  * Python exceptions are `Except Unit`; a Python value that may be `None`
    (such as `OpenaiModel.generate_response`'s result) is an `Option`.
  * Each operation that can issue outbound calls also returns the list of
    calls it issued (`List Call`), so that "performs no outbound call" is the
    empty trace.
  * Python `str.split()` / `str.lower()` / `str.strip()` are modelled by
    `pySplit` / `pyLower` / `pyStrip`; `pyLower` uses ASCII case folding,
    which agrees with Python on the ASCII keywords the dispatcher uses.
-/

/-- Core of `pySplit`: scan the characters, accumulating the current token in
reverse; a whitespace character ends the current token, and empty tokens are
never emitted. -/
def splitWsAux : List Char → List Char → List String
  | [], [] => []
  | [], acc => [String.mk acc.reverse]
  | c :: cs, acc =>
      if c.isWhitespace then
        match acc with
        | [] => splitWsAux cs []
        | _ => String.mk acc.reverse :: splitWsAux cs []
      else splitWsAux cs (c :: acc)

/-- Python `str.split()` with no arguments: split on runs of whitespace and
discard empty pieces.  Used by `bot` in `src/app.py`. -/
def pySplit (s : String) : List String :=
  splitWsAux s.data []

/-- Python `str.lower()` (ASCII case folding, which agrees with Python on the
ASCII keywords the dispatcher uses). -/
def pyLower (s : String) : String :=
  String.mk (s.data.map Char.toLower)

/-- Drop leading whitespace characters. -/
def dropLeadingWs : List Char → List Char
  | [] => []
  | c :: cs => if c.isWhitespace then dropLeadingWs cs else c :: cs

/-- Python `str.strip()` with no arguments: drop leading and trailing
whitespace. -/
def pyStrip (s : String) : String :=
  String.mk (dropLeadingWs (dropLeadingWs s.data.reverse).reverse)

/-- How Python renders an optional string inside an f-string: `None` prints
as the four characters `None`. -/
def optStr (o : Option String) : String := o.getD "None"

/-- The outbound request `OpenaiModel.generate_response` builds for
`requests.post` (`src/models/openai.py`): URL, JSON payload fields and the
authorization header. -/
structure OpenaiRequest where
  url : String
  prompt : String
  max_tokens : Nat
  authorization : String
deriving DecidableEq

/-- Outcome of the outbound OpenAI HTTP call, as the code distinguishes it:
`requests.post` raised; `raise_for_status` raised `HTTPError`; the body
lacked `choices[0].text` (any exception while indexing); or success with the
first completion's text. -/
inductive OpenaiOutcome where
  | raised
  | badStatus
  | malformed
  | ok (text : String)
deriving DecidableEq

/-- One outbound generative call, recorded in the call trace: either a Gemini
generative call (configured model name and prompt) or an OpenAI completions
request. -/
inductive Call where
  | gemini (model : Option String) (prompt : String)
  | openai (req : OpenaiRequest)
deriving DecidableEq

/-- A Gemini outbound oracle: given the configured model name and the prompt,
either the generated text or a raised exception (`genai.GenerativeModel`,
`generate_content` and `response.text` can all raise). -/
def GeminiNet : Type := Option String → String → Except Unit String

/-- An OpenAI outbound oracle: given the request the code built, the outcome
of `requests.post` and the response processing. -/
def OpenaiNet : Type := OpenaiRequest → OpenaiOutcome

/-- `OpenaiModel` state (`src/models/openai.py` `__init__`): the API key as
given, the model identifier, and the fixed word limit 100. -/
structure OpenaiModel where
  api_key : Option String
  model : String
  word_limit : Nat
deriving DecidableEq

/-- `OpenaiModel.__init__`: stores the API key, reads `OPENAI_MODEL` from the
environment with default `gpt-3.5-turbo-instruct`, and sets
`word_limit = 100`.  Never raises. -/
def OpenaiModel.init (api_key : Option String) (envModel : Option String) :
    OpenaiModel :=
  { api_key := api_key
    model := envModel.getD "gpt-3.5-turbo-instruct"
    word_limit := 100 }

/-- The request `OpenaiModel.generate_response` sends: the engines URL for the
configured model, the raw question as the prompt, `max_tokens` equal to
`word_limit * 5`, and a bearer authorization header. -/
def OpenaiModel.request (m : OpenaiModel) (question : String) : OpenaiRequest :=
  { url := "https://api.openai.com/v1/engines/" ++ m.model ++ "/completions"
    prompt := question
    max_tokens := m.word_limit * 5
    authorization := "Bearer " ++ optStr m.api_key }

/-- `OpenaiModel.generate_response`: issues one outbound call; on success
returns the first completion's text stripped of surrounding whitespace; every
failure (raised request, bad status, malformed body) is caught inside the
method, which then returns `None`.  The method itself never raises, hence the
result is always `Except.ok`. -/
def OpenaiModel.generate_response (m : OpenaiModel) (net : OpenaiNet)
    (question : String) : Except Unit (Option String) × List Call :=
  let req := m.request question
  ((match net req with
    | OpenaiOutcome.ok text => Except.ok (some (pyStrip text))
    | OpenaiOutcome.raised => Except.ok none
    | OpenaiOutcome.badStatus => Except.ok none
    | OpenaiOutcome.malformed => Except.ok none),
   [Call.openai req])

/-- `GeminiModel` state (`src/models/gemini.py` `__init__`): the API key, the
`GEMINI_MODEL` environment value (no default), and the fixed word limit
100. -/
structure GeminiModel where
  api_key : Option String
  model : Option String
  word_limit : Nat
deriving DecidableEq

/-- `GeminiModel.__init__`: stores the fields, then calls
`genai.configure`; a configuration failure is re-raised, so construction
fails exactly when `configure` does.  `configure` is an oracle for the
external `genai.configure` call. -/
def GeminiModel.init (configure : Option String → Except Unit Unit)
    (api_key : Option String) (envModel : Option String) :
    Except Unit GeminiModel := do
  let m : GeminiModel := { api_key := api_key, model := envModel, word_limit := 100 }
  let _ ← configure api_key
  return m

/-- The prompt `GeminiModel.generate_response` builds:
`f'Answer this question in {self.word_limit} words: ' + question`. -/
def GeminiModel.prompt (g : GeminiModel) (question : String) : String :=
  "Answer this question in " ++ toString g.word_limit ++ " words: " ++ question

/-- `GeminiModel.generate_response`: makes one generative call with the
instruction-prefixed prompt and returns the generated text verbatim; any
exception is re-raised to the caller. -/
def GeminiModel.generate_response (g : GeminiModel) (net : GeminiNet)
    (question : String) : Except Unit (Option String) × List Call :=
  let p := g.prompt question
  ((net g.model p).map some, [Call.gemini g.model p])

/-- `CommandHandler` state (`src/handlers/commands.py`): the `models`
dictionary's entries under the keys `"gemini"` and `"openai"`.  `none` models
an absent (or falsy) entry; a Python instance object is always truthy, so a
present instance is `some`. -/
structure CommandHandler where
  models_gemini : Option GeminiModel
  models_openai : Option OpenaiModel
deriving DecidableEq

/-- The process environment read at construction time: the two API keys and
the two optional model-identifier overrides. -/
structure Env where
  gemini_api_key : Option String
  openai_api_key : Option String
  gemini_model : Option String
  openai_model : Option String

/-- `CommandHandler.__init__`: builds the `models` dictionary with both keys,
constructing `GeminiModel` (which may raise via `genai.configure`) and
`OpenaiModel` (which never raises).  If construction completes, both entries
are present. -/
def CommandHandler.init (configure : Option String → Except Unit Unit)
    (env : Env) : Except Unit CommandHandler := do
  let g ← GeminiModel.init configure env.gemini_api_key env.gemini_model
  let o := OpenaiModel.init env.openai_api_key env.openai_model
  return { models_gemini := some g, models_openai := some o }

/-- `CommandHandler.handle_gemini`: if the `"gemini"` entry is present (and
truthy), call `generate_response` inside try/except, converting any raised
exception to the fixed error string; otherwise return the fixed
"not available" string and make no call. -/
def CommandHandler.handle_gemini (h : CommandHandler) (gnet : GeminiNet)
    (message : String) : Except Unit (Option String) × List Call :=
  match h.models_gemini with
  | some m =>
      let r := m.generate_response gnet message
      ((match r.1 with
        | Except.ok v => Except.ok v
        | Except.error _ =>
            Except.ok (some "An error occurred while generating a response.")),
       r.2)
  | none => (Except.ok (some "Gemini model is not available."), [])

/-- `CommandHandler.handle_openai`: if the `"openai"` entry is present (and
truthy), call `generate_response` inside try/except, converting any raised
exception to the fixed error string; otherwise return the fixed
"not available" string and make no call. -/
def CommandHandler.handle_openai (h : CommandHandler) (onet : OpenaiNet)
    (message : String) : Except Unit (Option String) × List Call :=
  match h.models_openai with
  | some m =>
      let r := m.generate_response onet message
      ((match r.1 with
        | Except.ok v => Except.ok v
        | Except.error _ =>
            Except.ok (some "An error occurred while generating a response.")),
       r.2)
  | none => (Except.ok (some "OpenAI model is not available."), [])

/-- `CommandHandler.handle_default`: the fixed fallback response, no side
effects. -/
def CommandHandler.handle_default (_message : String) :
    Except Unit (Option String) × List Call :=
  (Except.ok (some "Sorry, I didn't understand that command."), [])

/-- `self.commands.get(command, self.handle_default)`: the dispatch mapping
has exactly the keys `"gemini"` and `"openai"`; any other keyword resolves to
the default handler. -/
def CommandHandler.resolve (h : CommandHandler) (gnet : GeminiNet)
    (onet : OpenaiNet) (command : String) :
    String → Except Unit (Option String) × List Call :=
  if command = "gemini" then h.handle_gemini gnet
  else if command = "openai" then h.handle_openai onet
  else CommandHandler.handle_default

/-- The try/except body of `CommandHandler.handle_command`: invoke the
resolved handler; any exception it raises is caught and converted to the
fixed error string.  The result type has no exception component: nothing
propagates to the caller. -/
def tryHandler (handler : String → Except Unit (Option String) × List Call)
    (message : String) : Option String × List Call :=
  let r := handler message
  ((match r.1 with
    | Except.ok v => v
    | Except.error _ => some "An error occurred while processing your command."),
   r.2)

/-- `CommandHandler.handle_command`: resolve the keyword and run the resolved
handler under the catch-all. -/
def CommandHandler.handle_command (h : CommandHandler) (gnet : GeminiNet)
    (onet : OpenaiNet) (command message : String) : Option String × List Call :=
  tryHandler (h.resolve gnet onet command) message

/-- The `/bot` endpoint (`src/app.py`): read the `Body` form field (default
`''`), split it, take `split()[0].lower()` as the keyword and join the rest
with single spaces as the message, then dispatch.  When the body has no
tokens, `split()[0]` raises `IndexError`, which the endpoint's outer
try/except converts to the fixed apology string.  The first component is the
reply body handed to the transport envelope (`None` stays `None`). -/
def bot (h : CommandHandler) (gnet : GeminiNet) (onet : OpenaiNet)
    (body : String) : Option String × List Call :=
  match pySplit body with
  | [] => (some "Sorry, an error occurred while processing your request.", [])
  | first :: rest =>
      h.handle_command gnet onet (pyLower first) (String.intercalate " " rest)

/-! Concrete sample instances used by witnesses and counterexamples. -/

/-- A `genai.configure` oracle that succeeds on every key. -/
def okConfigure : Option String → Except Unit Unit := fun _ => Except.ok ()

/-- A Gemini oracle on which every generative call raises. -/
def failGnet : GeminiNet := fun _ _ => Except.error ()

/-- An OpenAI oracle on which every `requests.post` raises. -/
def failOnet : OpenaiNet := fun _ => OpenaiOutcome.raised

/-- An OpenAI oracle on which every call succeeds with a padded text. -/
def okOnet : OpenaiNet := fun _ => OpenaiOutcome.ok "  hi there  "

/-- A Gemini oracle on which every call succeeds with an untrimmed text. -/
def okGnet : GeminiNet := fun _ _ => Except.ok "\n raw text \n"

/-- A sample process environment. -/
def sampleEnv : Env :=
  { gemini_api_key := some "gkey"
    openai_api_key := some "okey"
    gemini_model := some "gemini-pro"
    openai_model := none }

/-- The handler `CommandHandler.init okConfigure sampleEnv` constructs. -/
def sampleHandler : CommandHandler :=
  { models_gemini := some { api_key := some "gkey", model := some "gemini-pro", word_limit := 100 }
    models_openai := some (OpenaiModel.init (some "okey") none) }

/-- A handler state whose `models` entries are both absent. -/
def emptyHandler : CommandHandler :=
  { models_gemini := none, models_openai := none }

/-- A handler function that raises on every message. -/
def raisingHandler : String → Except Unit (Option String) × List Call :=
  fun _ => (Except.error (), [])

theorem sampleHandler_init :
    CommandHandler.init okConfigure sampleEnv = Except.ok sampleHandler := rfl

/-! Claim theorems. -/

/-- C3: for every non-empty inbound message, `bot` dispatches on the first
whitespace-delimited token lower-cased with the remaining tokens joined by
single spaces as the message; two bodies that tokenize to the same list up to
the first token's letter case produce identical end-to-end results. -/
theorem C3_tokenization (h : CommandHandler) (gnet : GeminiNet)
    (onet : OpenaiNet) (m1 m2 w1 w2 : String) (rest : List String)
    (h1 : pySplit m1 = w1 :: rest) (h2 : pySplit m2 = w2 :: rest)
    (hw : pyLower w1 = pyLower w2) :
    bot h gnet onet m1 =
      h.handle_command gnet onet (pyLower w1) (String.intercalate " " rest)
    ∧ bot h gnet onet m1 = bot h gnet onet m2 := by
  have e1 : bot h gnet onet m1 =
      h.handle_command gnet onet (pyLower w1) (String.intercalate " " rest) := by
    unfold bot; rw [h1]
  have e2 : bot h gnet onet m2 =
      h.handle_command gnet onet (pyLower w2) (String.intercalate " " rest) := by
    unfold bot; rw [h2]
  exact ⟨e1, by rw [e1, e2, hw]⟩

/-- C3 witness: `" Gemini  what is rust "` and `"gemini what is rust"`
tokenize identically up to first-token case and get the same reply. -/
theorem C3_tokenization_witness :
    bot sampleHandler failGnet failOnet " Gemini  what is rust " =
      sampleHandler.handle_command failGnet failOnet (pyLower "Gemini")
        (String.intercalate " " ["what", "is", "rust"])
    ∧ bot sampleHandler failGnet failOnet " Gemini  what is rust " =
      bot sampleHandler failGnet failOnet "gemini what is rust" :=
  C3_tokenization sampleHandler failGnet failOnet
    " Gemini  what is rust " "gemini what is rust" "Gemini" "gemini"
    ["what", "is", "rust"] (by decide) (by decide) (by decide)

/-- C4: if the resolved handler raises, the try/except body of
`handle_command` catches it and returns the fixed error string; and
`handle_command` is exactly that catch-all applied to the resolved handler,
whose result type (`Option String × List Call`) has no exception component,
so `handle_command` never raises to its caller. -/
theorem C4_catch_all (handler : String → Except Unit (Option String) × List Call)
    (message : String) (e : Unit) (hr : (handler message).1 = Except.error e) :
    (tryHandler handler message).1 =
      some "An error occurred while processing your command."
    ∧ ∀ (h : CommandHandler) (gnet : GeminiNet) (onet : OpenaiNet)
        (command msg : String),
        h.handle_command gnet onet command msg =
          tryHandler (h.resolve gnet onet command) msg := by
  refine ⟨?_, fun _ _ _ _ _ => rfl⟩
  simp only [tryHandler]
  rw [hr]

/-- C4 witness: a handler that raises is converted to the fixed string. -/
theorem C4_catch_all_witness :
    (tryHandler raisingHandler "hello").1 =
      some "An error occurred while processing your command."
    ∧ ∀ (h : CommandHandler) (gnet : GeminiNet) (onet : OpenaiNet)
        (command msg : String),
        h.handle_command gnet onet command msg =
          tryHandler (h.resolve gnet onet command) msg :=
  C4_catch_all raisingHandler "hello" () rfl

/-- C5: a keyword that is neither `"gemini"` nor `"openai"` resolves to the
default handler: the response is exactly the fixed string, with no outbound
call and no error state, whatever the message. -/
theorem C5_unrecognized (h : CommandHandler) (gnet : GeminiNet)
    (onet : OpenaiNet) (command message : String)
    (hg : command ≠ "gemini") (ho : command ≠ "openai") :
    h.handle_command gnet onet command message =
      (some "Sorry, I didn't understand that command.", []) := by
  unfold CommandHandler.handle_command CommandHandler.resolve
  rw [if_neg hg, if_neg ho]
  rfl

/-- C5 witness: the keyword `"ping"`. -/
theorem C5_unrecognized_witness :
    sampleHandler.handle_command failGnet failOnet "ping" "" =
      (some "Sorry, I didn't understand that command.", []) :=
  C5_unrecognized sampleHandler failGnet failOnet "ping" ""
    (by decide) (by decide)

/-- Helper: a constructed `CommandHandler` has both `models` entries, with the
exact instances `__init__` built. -/
theorem init_models (configure : Option String → Except Unit Unit) (env : Env)
    (h : CommandHandler)
    (hinit : CommandHandler.init configure env = Except.ok h) :
    h.models_gemini = some { api_key := env.gemini_api_key,
                             model := env.gemini_model, word_limit := 100 }
    ∧ h.models_openai = some (OpenaiModel.init env.openai_api_key env.openai_model) := by
  unfold CommandHandler.init GeminiModel.init at hinit
  cases hc : configure env.gemini_api_key with
  | error e => rw [hc] at hinit; exact absurd hinit (by simp [Bind.bind, Except.bind])
  | ok u =>
      rw [hc] at hinit
      simp only [Bind.bind, Except.bind, pure, Except.pure] at hinit
      cases hinit
      exact ⟨rfl, rfl⟩

/-- Helper: when the outbound OpenAI call does not succeed, `handle_openai`
returns `None` (inside a normal, non-raising return) after one call. -/
theorem handle_openai_none_of_fail (h : CommandHandler) (m : OpenaiModel)
    (onet : OpenaiNet) (question : String)
    (hm : h.models_openai = some m)
    (hfail : ∀ t : String, onet (m.request question) ≠ OpenaiOutcome.ok t) :
    h.handle_openai onet question =
      (Except.ok none, [Call.openai (m.request question)]) := by
  have h1 : (m.generate_response onet question).1 = Except.ok none := by
    simp only [OpenaiModel.generate_response]
    cases hc : onet (m.request question) with
    | ok t => exact absurd hc (hfail t)
    | raised => rfl
    | badStatus => rfl
    | malformed => rfl
  have h2 : (m.generate_response onet question).2 = [Call.openai (m.request question)] := rfl
  unfold CommandHandler.handle_openai
  rw [hm]
  simp only [h1, h2]

/-- C6: the OpenAI backend sends the raw question unmodified as the prompt
(no instruction text injected), with `max_tokens = word_limit * 5 = 500`, and
on a successful call returns the first completion's text stripped of leading
and trailing whitespace. -/
theorem C6_openai_contract (api_key envModel : Option String)
    (question : String) (net : OpenaiNet) (text : String)
    (hok : net ((OpenaiModel.init api_key envModel).request question) =
      OpenaiOutcome.ok text) :
    ((OpenaiModel.init api_key envModel).request question).prompt = question
    ∧ (OpenaiModel.init api_key envModel).word_limit = 100
    ∧ ((OpenaiModel.init api_key envModel).request question).max_tokens = 500
    ∧ (OpenaiModel.init api_key envModel).generate_response net question =
        (Except.ok (some (pyStrip text)),
         [Call.openai ((OpenaiModel.init api_key envModel).request question)]) := by
  refine ⟨rfl, rfl, rfl, ?_⟩
  simp only [OpenaiModel.generate_response]
  rw [hok]

/-- C6 witness: a padded completion text comes back stripped. -/
theorem C6_openai_contract_witness :
    ((OpenaiModel.init (some "okey") none).request "hello").prompt = "hello"
    ∧ (OpenaiModel.init (some "okey") none).word_limit = 100
    ∧ ((OpenaiModel.init (some "okey") none).request "hello").max_tokens = 500
    ∧ (OpenaiModel.init (some "okey") none).generate_response okOnet "hello" =
        (Except.ok (some (pyStrip "  hi there  ")),
         [Call.openai ((OpenaiModel.init (some "okey") none).request "hello")]) :=
  C6_openai_contract (some "okey") none "hello" okOnet "  hi there  " rfl

/-- C7: the Gemini backend prepends the fixed 100-word-limit instruction to
the raw question, makes exactly one generative call, and on success returns
the provider's text verbatim (no trimming, no truncation). -/
theorem C7_gemini_contract (configure : Option String → Except Unit Unit)
    (api_key envModel : Option String) (g : GeminiModel)
    (hinit : GeminiModel.init configure api_key envModel = Except.ok g)
    (net : GeminiNet) (question text : String)
    (hok : net g.model (g.prompt question) = Except.ok text) :
    g.prompt question = "Answer this question in 100 words: " ++ question
    ∧ (g.generate_response net question).2 =
        [Call.gemini g.model (g.prompt question)]
    ∧ (g.generate_response net question).1 = Except.ok (some text) := by
  have hg : g.word_limit = 100 := by
    unfold GeminiModel.init at hinit
    cases hc : configure api_key with
    | error e => rw [hc] at hinit; exact absurd hinit (by simp [Bind.bind, Except.bind])
    | ok u =>
        rw [hc] at hinit
        simp only [Bind.bind, Except.bind, pure, Except.pure] at hinit
        cases hinit
        rfl
  refine ⟨?_, rfl, ?_⟩
  · unfold GeminiModel.prompt
    rw [hg]
    rfl
  · simp only [GeminiModel.generate_response]
    rw [hok]
    rfl

/-- C7 witness: an untrimmed provider text is returned verbatim. -/
theorem C7_gemini_contract_witness :
    GeminiModel.prompt { api_key := some "gkey", model := some "gemini-pro", word_limit := 100 } "hi" =
      "Answer this question in 100 words: " ++ "hi"
    ∧ (GeminiModel.generate_response
        { api_key := some "gkey", model := some "gemini-pro", word_limit := 100 } okGnet "hi").2 =
        [Call.gemini (some "gemini-pro")
          (GeminiModel.prompt { api_key := some "gkey", model := some "gemini-pro", word_limit := 100 } "hi")]
    ∧ (GeminiModel.generate_response
        { api_key := some "gkey", model := some "gemini-pro", word_limit := 100 } okGnet "hi").1 =
        Except.ok (some "\n raw text \n") :=
  C7_gemini_contract okConfigure (some "gkey") (some "gemini-pro")
    { api_key := some "gkey", model := some "gemini-pro", word_limit := 100 }
    rfl okGnet "hi" "\n raw text \n" rfl

/-- C8: when a backend's `models` entry is absent (or falsy), its wrapper
handler returns the fixed "not available" string and issues no outbound
call, never invoking `generate_response`. -/
theorem C8_unavailable (h : CommandHandler) (gnet : GeminiNet)
    (onet : OpenaiNet) (message : String)
    (hg : h.models_gemini = none) (ho : h.models_openai = none) :
    h.handle_gemini gnet message =
      (Except.ok (some "Gemini model is not available."), [])
    ∧ h.handle_openai onet message =
      (Except.ok (some "OpenAI model is not available."), []) := by
  unfold CommandHandler.handle_gemini CommandHandler.handle_openai
  rw [hg, ho]
  exact ⟨rfl, rfl⟩

/-- C8 witness: a handler state with both entries absent. -/
theorem C8_unavailable_witness :
    emptyHandler.handle_gemini failGnet "hello" =
      (Except.ok (some "Gemini model is not available."), [])
    ∧ emptyHandler.handle_openai failOnet "hello" =
      (Except.ok (some "OpenAI model is not available."), []) :=
  C8_unavailable emptyHandler failGnet failOnet "hello" rfl rfl

/-- C9: when the outbound OpenAI call fails, `generate_response` does not
raise but returns `None`; `handle_openai` passes that `None` through
unchanged, and `handle_command` hands the non-string `None` to its caller. -/
theorem C9_none_result (api_key envModel : Option String) (question : String)
    (onet : OpenaiNet) (gnet : GeminiNet) (h : CommandHandler)
    (hm : h.models_openai = some (OpenaiModel.init api_key envModel))
    (hfail : ∀ t : String,
      onet ((OpenaiModel.init api_key envModel).request question) ≠
        OpenaiOutcome.ok t) :
    ((OpenaiModel.init api_key envModel).generate_response onet question).1 =
      Except.ok none
    ∧ (h.handle_openai onet question).1 = Except.ok none
    ∧ (h.handle_command gnet onet "openai" question).1 = none := by
  have hno := handle_openai_none_of_fail h (OpenaiModel.init api_key envModel)
    onet question hm hfail
  have h1 : ((OpenaiModel.init api_key envModel).generate_response onet question).1 =
      Except.ok none := by
    simp only [OpenaiModel.generate_response]
    cases hc : onet ((OpenaiModel.init api_key envModel).request question) with
    | ok t => exact absurd hc (hfail t)
    | raised => rfl
    | badStatus => rfl
    | malformed => rfl
  refine ⟨h1, by rw [hno], ?_⟩
  have hres : CommandHandler.resolve h gnet onet "openai" = h.handle_openai onet := by
    unfold CommandHandler.resolve
    rw [if_neg (by decide), if_pos rfl]
  unfold CommandHandler.handle_command tryHandler
  rw [hres, hno]

/-- C9 witness: an always-raising OpenAI oracle on the sample handler. -/
theorem C9_none_result_witness :
    ((OpenaiModel.init (some "okey") none).generate_response failOnet "hello").1 =
      Except.ok none
    ∧ (sampleHandler.handle_openai failOnet "hello").1 = Except.ok none
    ∧ (sampleHandler.handle_command failGnet failOnet "openai" "hello").1 = none :=
  C9_none_result (some "okey") none "hello" failOnet failGnet sampleHandler rfl
    (fun _ hc => OpenaiOutcome.noConfusion hc)

/-- C10: once `CommandHandler` construction completes, the `models` mapping
holds instances under both keys, so each wrapper handler takes the
model-present branch and issues exactly one outbound call for every message:
the "model is not available" branches are unreachable. -/
theorem C10_models_present (configure : Option String → Except Unit Unit)
    (env : Env) (h : CommandHandler)
    (hinit : CommandHandler.init configure env = Except.ok h) :
    h.models_gemini.isSome = true ∧ h.models_openai.isSome = true
    ∧ (∀ (gnet : GeminiNet) (message : String),
        (h.handle_gemini gnet message).2.length = 1)
    ∧ (∀ (onet : OpenaiNet) (message : String),
        (h.handle_openai onet message).2.length = 1) := by
  obtain ⟨hg, ho⟩ := init_models configure env h hinit
  refine ⟨by rw [hg]; rfl, by rw [ho]; rfl, ?_, ?_⟩
  · intro gnet message
    unfold CommandHandler.handle_gemini
    rw [hg]
    rfl
  · intro onet message
    unfold CommandHandler.handle_openai
    rw [ho]
    simp only [OpenaiModel.generate_response]
    rfl

/-- C10 witness: the handler constructed from the sample environment. -/
theorem C10_models_present_witness :
    sampleHandler.models_gemini.isSome = true
    ∧ sampleHandler.models_openai.isSome = true
    ∧ (∀ (gnet : GeminiNet) (message : String),
        (sampleHandler.handle_gemini gnet message).2.length = 1)
    ∧ (∀ (onet : OpenaiNet) (message : String),
        (sampleHandler.handle_openai onet message).2.length = 1) :=
  C10_models_present okConfigure sampleEnv sampleHandler sampleHandler_init

/-- C1 counterexample: with the constructed sample handler and an OpenAI
oracle whose every call raises, `handle_openai "hello"` returns `None`
(without raising), not the claimed fixed error string, and the end-to-end
reply body for `"openai hello"` is the absent value, not that string. -/
theorem C1_counterexample :
    (sampleHandler.handle_openai failOnet "hello").1 = Except.ok none
    ∧ (bot sampleHandler failGnet failOnet "openai hello").1 = none
    ∧ ¬ (bot sampleHandler failGnet failOnet "openai hello").1 =
        some "An error occurred while generating a response." := by
  refine ⟨rfl, rfl, ?_⟩
  intro hcontra
  exact Option.noConfusion hcontra

/-- C1 (amended): when the OpenAI backend's outbound call fails,
`generate_response` swallows the failure, `handle_openai` returns `None`
rather than the fixed error string, and `handle_command` returns normally
without raising; end-to-end, the body `"openai hello"` with a failing
outbound call produces an absent (`None`) reply body. -/
theorem C1_amended (configure : Option String → Except Unit Unit) (env : Env)
    (h : CommandHandler)
    (hinit : CommandHandler.init configure env = Except.ok h)
    (gnet : GeminiNet) (onet : OpenaiNet)
    (hfail : ∀ (r : OpenaiRequest) (t : String), onet r ≠ OpenaiOutcome.ok t) :
    (h.handle_openai onet "hello").1 = Except.ok none
    ∧ (bot h gnet onet "openai hello").1 = none := by
  obtain ⟨hg, ho⟩ := init_models configure env h hinit
  have hno := handle_openai_none_of_fail h
    (OpenaiModel.init env.openai_api_key env.openai_model) onet "hello" ho
    (fun t => hfail _ t)
  refine ⟨by rw [hno], ?_⟩
  have hsplit : pySplit "openai hello" = ["openai", "hello"] := by decide
  unfold bot
  rw [hsplit]
  show (h.handle_command gnet onet (pyLower "openai")
    (String.intercalate " " ["hello"])).1 = none
  have hres : CommandHandler.resolve h gnet onet (pyLower "openai") =
      h.handle_openai onet := by
    unfold CommandHandler.resolve
    rw [if_neg (by decide), if_pos (by decide)]
  have hint : String.intercalate " " ["hello"] = "hello" := by decide
  unfold CommandHandler.handle_command tryHandler
  rw [hres, hint, hno]

/-- C1 (amended) witness: the sample handler with the always-failing OpenAI
oracle. -/
theorem C1_amended_witness :
    (sampleHandler.handle_openai failOnet "hello").1 = Except.ok none
    ∧ (bot sampleHandler failGnet failOnet "openai hello").1 = none :=
  C1_amended okConfigure sampleEnv sampleHandler sampleHandler_init
    failGnet failOnet (fun _ _ hc => OpenaiOutcome.noConfusion hc)

/-- C2 counterexample: for an empty `Body`, `split()[0]` raises `IndexError`
inside the endpoint, so the reply body is the outer apology string, not the
default handler's "didn't understand" response. -/
theorem C2_counterexample :
    (bot sampleHandler failGnet failOnet "").1 =
      some "Sorry, an error occurred while processing your request."
    ∧ ¬ (bot sampleHandler failGnet failOnet "").1 =
      some "Sorry, I didn't understand that command." := by
  refine ⟨rfl, ?_⟩
  intro hcontra
  have h1 : "Sorry, an error occurred while processing your request." =
      "Sorry, I didn't understand that command." := Option.some.inj hcontra
  exact absurd h1 (by decide)

/-- C2 (amended): for every inbound body that tokenizes to no tokens (empty
or whitespace-only, including an absent field defaulted to the empty
string), the first-token extraction raises and the endpoint's outer handler
returns the fixed apology string; the default handler is never reached and
no outbound call is made. -/
theorem C2_amended (h : CommandHandler) (gnet : GeminiNet) (onet : OpenaiNet)
    (body : String) (hempty : pySplit body = []) :
    bot h gnet onet body =
      (some "Sorry, an error occurred while processing your request.", []) := by
  unfold bot
  rw [hempty]

/-- C2 (amended) witness: the empty body. -/
theorem C2_amended_witness :
    bot sampleHandler failGnet failOnet "" =
      (some "Sorry, an error occurred while processing your request.", []) :=
  C2_amended sampleHandler failGnet failOnet "" (by decide)
